import Mathlib

/-!
Shallow embedding of the grade aggregation & ranking engine of the
grade-management web application, together with its grade-upload paths.

Numeric values (scores, credits, grade points, GPA) are JavaScript numbers in
the source; they are modelled as exact rationals (`ℚ`).  Database rows are
modelled as Lean structures, result sets of the remote queries as lists in
table order, and the remote upsert as an oracle function returning an optional
error message.  JavaScript objects used as string-keyed maps are modelled as
association lists with insert-order preserving upsert, matching JS object key
semantics for non-integer string keys.
-/

/-- Row of the `courses` table (`SemesterGradeReport.tsx`, interface `Course`). -/
structure Course where
  id : String
  code : String
  name : String
  credits : ℚ
  semester : Nat
  curriculum : String
deriving DecidableEq

/-- Row of the `students` table (fields used by the report and uploads). -/
structure Student where
  id : String
  nim : String
  name : String
  angkatan : String
deriving DecidableEq

/-- Row of the `grades` table (`SemesterGradeReport.tsx`, interface `Grade`). -/
structure Grade where
  score : ℚ
  letter_grade : String
  course_id : String
  student_id : String
deriving DecidableEq

/-- Row of the `grading_scales` table
(migration `20251126010747_create_grading_scales_table.sql`). -/
structure GradingScale where
  curriculum : String
  letter_grade : String
  min_score : ℚ
  max_score : ℚ
  grade_point : ℚ
deriving DecidableEq

/-- Per-course entry of `StudentGrade.courses`
(`SemesterGradeReport.tsx`, interface `StudentGrade`, field `courses`). -/
structure CourseGrade where
  score : ℚ
  letter_grade : String
  grade_point : ℚ
  credits : ℚ
deriving DecidableEq

/-- Interface `StudentGrade` of `SemesterGradeReport.tsx`.  The JS object
`courses` keyed by course id is an association list in insertion order. -/
structure StudentGrade where
  student_id : String
  nim : String
  name : String
  angkatan : String
  courses : List (String × CourseGrade)
  totalScore : ℚ
  totalGradePoint : ℚ
  totalCredits : ℚ
  gpa : ℚ
  rank : Nat
deriving DecidableEq

/-- Assignment `obj[k] = v` on a JS object: replaces the value in place if the
key exists, otherwise appends (JS objects keep insertion order for string
keys). -/
def upsert {β : Type} (k : String) (v : β) : List (String × β) → List (String × β)
  | [] => [(k, v)]
  | (k', v') :: rest => if k' = k then (k, v) :: rest else (k', v') :: upsert k v rest

/-- In-place update `f` of the value at key `k`, other entries untouched. -/
def modifyAt {β : Type} (k : String) (f : β → β) : List (String × β) → List (String × β)
  | [] => []
  | (k', v') :: rest => if k' = k then (k', f v') :: rest else (k', v') :: modifyAt k f rest

/-- JS object member access `obj[k]`. -/
def lookupKey {β : Type} (k : String) : List (String × β) → Option β
  | [] => none
  | (k', v) :: rest => if k' = k then some v else lookupKey k rest

/-- Behaviour of supabase `.maybeSingle()`: `data` is the row when the result
set has exactly one row, and `null` otherwise (zero rows, or an error when
more than one row matches). -/
def maybeSingle {α : Type} : List α → Option α
  | [x] => some x
  | _ => none

/-- JavaScript `x || d` on numbers: `d` when `x` is falsy (zero), else `x`. -/
def jsOr (x d : ℚ) : ℚ := if x = 0 then d else x

/-- Result set of the `grading_scales` query of `getGradePoint` and of the
`WHERE` clause of the SQL functions: rows of the curriculum whose
inclusive `[min_score, max_score]` range contains the score, in table order. -/
def scaleMatches (scales : List GradingScale) (score : ℚ) (curriculum : String) :
    List GradingScale :=
  scales.filter fun e =>
    e.curriculum == curriculum && decide (e.min_score ≤ score) && decide (score ≤ e.max_score)

/-- `getGradePoint` of `SemesterGradeReport.tsx` (lines 96-111): a
`.maybeSingle()` lookup in `grading_scales`, then `data?.grade_point || 0`. -/
def getGradePoint (scales : List GradingScale) (score : ℚ) (curriculum : String) : ℚ :=
  match maybeSingle (scaleMatches scales score curriculum) with
  | some e => jsOr e.grade_point 0
  | none => 0

/-- SQL function `get_letter_grade` of the grading-scales migration:
`SELECT letter_grade ... LIMIT 1` (no ORDER BY, modelled as the first
matching row in table order), then `COALESCE(v_letter_grade, 'E')`. -/
def get_letter_grade (scales : List GradingScale) (score : ℚ) (curriculum : String) : String :=
  match (scaleMatches scales score curriculum).head? with
  | some e => e.letter_grade
  | none => "E"

/-- SQL function `get_grade_point` of the grading-scales migration:
`SELECT grade_point ... LIMIT 1` (no ORDER BY, modelled as the first matching
row in table order), then `COALESCE(v_grade_point, 0.00)`. -/
def get_grade_point (scales : List GradingScale) (score : ℚ) (curriculum : String) : ℚ :=
  match (scaleMatches scales score curriculum).head? with
  | some e => e.grade_point
  | none => 0

/-- Fresh `studentGradesMap` entry (`loadReport`, lines 158-171). -/
def initStudent (st : Student) : StudentGrade :=
  { student_id := st.id, nim := st.nim, name := st.name, angkatan := st.angkatan,
    courses := [], totalScore := 0, totalGradePoint := 0, totalCredits := 0,
    gpa := 0, rank := 0 }

/-- The `studentGradesMap` after the first loop of `loadReport`:
`studentGradesMap[student.id] = {...}` for each fetched student. -/
def buildStudentMap (studentsData : List Student) : List (String × StudentGrade) :=
  studentsData.foldl (fun m st => upsert st.id (initStudent st) m) []

/-- One iteration of the grade loop of `loadReport` (lines 173-185): find the
grade's course, and if both the course and the student-map entry exist, set
`studentGradesMap[grade.student_id].courses[grade.course_id]`. -/
def applyGrade (coursesData : List Course) (scales : List GradingScale) (curriculum : String)
    (m : List (String × StudentGrade)) (g : Grade) : List (String × StudentGrade) :=
  match coursesData.find? (fun c => c.id == g.course_id) with
  | some course =>
      if (lookupKey g.student_id m).isSome then
        let entry : CourseGrade :=
          { score := g.score, letter_grade := g.letter_grade,
            grade_point := getGradePoint scales g.score curriculum,
            credits := course.credits }
        modifyAt g.student_id (fun s => { s with courses := upsert g.course_id entry s.courses }) m
      else m
  | none => m

/-- The aggregation mapping of `loadReport` (lines 187-208): accumulate
`totalScore`, `totalWeightedGradePoint`, `totalCredits` over the student's
course entries, then `gpa = totalCredits > 0 ? twgp / totalCredits : 0`.
(The source also counts `courseCount`, which is unused.) -/
def aggregateStudent (student : StudentGrade) : StudentGrade :=
  let acc := student.courses.foldl
    (fun (t : ℚ × ℚ × ℚ) p =>
      (t.1 + p.2.score, t.2.1 + p.2.grade_point * p.2.credits, t.2.2 + p.2.credits))
    (0, 0, 0)
  { student with
    totalScore := acc.1, totalGradePoint := acc.2.1, totalCredits := acc.2.2,
    gpa := if acc.2.2 > 0 then acc.2.1 / acc.2.2 else 0 }

/-- The comparator of `studentsList.sort` (lines 210-214). -/
def sortCompare (a b : StudentGrade) : ℚ :=
  if b.gpa ≠ a.gpa then b.gpa - a.gpa
  else if b.totalGradePoint ≠ a.totalGradePoint then b.totalGradePoint - a.totalGradePoint
  else b.totalScore - a.totalScore

/-- `a` may stay before `b` under the comparator: `sortCompare a b ≤ 0`. -/
def sortLE (a b : StudentGrade) : Prop := sortCompare a b ≤ 0

instance : DecidableRel sortLE :=
  fun a b => inferInstanceAs (Decidable (sortCompare a b ≤ 0))

/-- `Array.prototype.sort` with a consistent comparator is a stable sort
(ECMAScript 2019); the output of a stable sort by a total preorder is unique,
so it is modelled by insertion sort, which is stable. -/
def sortStudents (l : List StudentGrade) : List StudentGrade :=
  l.insertionSort sortLE

/-- Record with the `rank` field assigned (`student.rank = index + 1`). -/
def setRank (s : StudentGrade) (r : Nat) : StudentGrade := { s with rank := r }

/-- The `forEach` of lines 216-218 starting at index `i`. -/
def assignRanksFrom (i : Nat) : List StudentGrade → List StudentGrade
  | [] => []
  | s :: rest => setRank s (i + 1) :: assignRanksFrom (i + 1) rest

/-- `studentsList.forEach((student, index) => student.rank = index + 1)`. -/
def assignRanks (l : List StudentGrade) : List StudentGrade := assignRanksFrom 0 l

/-- The aggregated (unsorted) `studentsList` of `loadReport`:
`Object.values(studentGradesMap).map(...)` after the grade loop. -/
def aggList (coursesData : List Course) (studentsData : List Student)
    (gradesData : List Grade) (scales : List GradingScale) (curriculum : String) :
    List StudentGrade :=
  ((gradesData.foldl (applyGrade coursesData scales curriculum)
      (buildStudentMap studentsData)).map Prod.snd).map aggregateStudent

/-- The computational core of `loadReport` (lines 156-218), from the fetched
result sets to the ranked `studentGrades` list. -/
def loadReport (coursesData : List Course) (studentsData : List Student)
    (gradesData : List Grade) (scales : List GradingScale) (curriculum : String) :
    List StudentGrade :=
  assignRanks (sortStudents (aggList coursesData studentsData gradesData scales curriculum))

/-- Descending lexicographic order on (gpa, totalGradePoint, totalScore):
the property the sort comparator realises. -/
def rankKeyLE (a b : StudentGrade) : Prop :=
  b.gpa < a.gpa ∨ (b.gpa = a.gpa ∧
    (b.totalGradePoint < a.totalGradePoint ∨ (b.totalGradePoint = a.totalGradePoint ∧
      b.totalScore ≤ a.totalScore)))

/-- Modelled from the spec: `resolveGrade` as §4.1 defines it, choosing the
first matching entry when the scale entries are ordered by descending
`minScore`.  Stated only for comparison with the source's lookup. -/
def byMinScoreDesc (a b : GradingScale) : Prop := b.min_score ≤ a.min_score

instance : DecidableRel byMinScoreDesc :=
  fun a b => inferInstanceAs (Decidable (b.min_score ≤ a.min_score))

/-- Modelled from the spec (§4.1 resolveGrade): order the curriculum's scale
entries by descending `minScore` and return the first entry containing the
score, as `(letterGrade, gradePoint)`; `none` when no entry matches. -/
def resolveGradeSpec (scales : List GradingScale) (score : ℚ) (curriculum : String) :
    Option (String × ℚ) :=
  ((scales.insertionSort byMinScoreDesc).find? fun e =>
      e.curriculum == curriculum && decide (e.min_score ≤ score) &&
        decide (score ≤ e.max_score)).map
    fun e => (e.letter_grade, e.grade_point)

/-- Hard-coded score to letter-grade map `getLetterGrade`, which appears with
this exact body in both the Excel grade-upload component and the CSV
grade-upload component.  It is a function of the score alone and consults no
grading-scale table. -/
def getLetterGrade (score : ℚ) : String :=
  if score ≥ 85 then "A"
  else if score ≥ 80 then "B+"
  else if score ≥ 75 then "B"
  else if score ≥ 70 then "B-"
  else if score ≥ 65 then "C+"
  else if score ≥ 60 then "C"
  else if score ≥ 55 then "D"
  else "E"

/-- Hard-coded score to letter-grade map `calculateLetterGrade` of the
enrollment grade-entry component.  Also a function of the score alone. -/
def calculateLetterGrade (score : ℚ) : String :=
  if score ≥ 85 then "A"
  else if score ≥ 80 then "A-"
  else if score ≥ 75 then "B+"
  else if score ≥ 70 then "B"
  else if score ≥ 65 then "B-"
  else if score ≥ 60 then "C+"
  else if score ≥ 55 then "C"
  else if score ≥ 50 then "C-"
  else if score ≥ 45 then "D"
  else "E"

/-- Upload row state of the Excel grade-upload component. -/
inductive RowStatus
  | pending
  | success
  | error
deriving DecidableEq

/-- Interface `UploadedRow` of the Excel grade-upload component (`angkatan` is
the selected value, `message` absent is `none`). -/
structure UploadedRow where
  nim : String
  courseCode : String
  angkatan : String
  score : ℚ
  status : RowStatus
  message : Option String
deriving DecidableEq

/-- One iteration of `handleUpload` of the Excel grade-upload component
(lines 127-208): validate, look up the student by (nim, angkatan) and the
course by code with `.maybeSingle()`, then upsert; `upsertErr` is the remote
upsert outcome (an error message, or `none` on success) as a function of the
upserted row. -/
def processRow (students : List Student) (courses : List Course)
    (upsertErr : String → String → ℚ → String → Option String) (row : UploadedRow) :
    UploadedRow :=
  if row.nim = "" ∨ row.score < 0 ∨ row.score > 100 then
    { row with status := .error, message := some "NIM atau nilai tidak valid" }
  else
    match maybeSingle (students.filter fun s =>
        s.nim == row.nim && s.angkatan == row.angkatan) with
    | none =>
        { row with status := .error, message := some "Mahasiswa tidak ditemukan" }
    | some student =>
      if student.id = "" then
        { row with status := .error, message := some "Mahasiswa tidak ditemukan" }
      else
        match maybeSingle (courses.filter fun c => c.code == row.courseCode) with
        | none => { row with status := .error, message := some "Mata kuliah tidak ditemukan" }
        | some course =>
          if course.id = "" then
            { row with status := .error, message := some "Mata kuliah tidak ditemukan" }
          else
            match upsertErr student.id course.id row.score (getLetterGrade row.score) with
            | some msg => { row with status := .error, message := some msg }
            | none => { row with status := .success }

/-- The `for` loop of the Excel `handleUpload`: every row of the preview is
processed and pushed onto `processedRows`; a failure only marks its own row. -/
def excel_handleUpload (students : List Student) (courses : List Course)
    (upsertErr : String → String → ℚ → String → Option String)
    (preview : List UploadedRow) : List UploadedRow :=
  preview.foldl (fun acc row => acc ++ [processRow students courses upsertErr row]) []

/-- A parsed CSV row of the CSV grade-upload component: `nim` and
`courseCode` default to the empty string for missing fields and `score` is
`parseFloat(... || '0')`. -/
structure CsvRow where
  nim : String
  courseCode : String
  score : ℚ
deriving DecidableEq

/-- One iteration of `handleUpload` of the CSV grade-upload component
(lines 72-127): the falsy-check `!nim || !courseCode || !score`, the two
`.maybeSingle()` lookups, then the upsert.  Returns the upserted grade row
`(student_id, course_id, score, letter_grade)`, or `none` when the row is
counted as failed. -/
def csvProcessRow (students : List Student) (courses : List Course)
    (upsertErr : String → String → ℚ → String → Option String) (row : CsvRow) :
    Option (String × String × ℚ × String) :=
  if row.nim = "" ∨ row.courseCode = "" ∨ row.score = 0 then none
  else
    match maybeSingle (students.filter fun s => s.nim == row.nim) with
    | none => none
    | some student =>
      if student.id = "" then none
      else
        match maybeSingle (courses.filter fun c => c.code == row.courseCode) with
        | none => none
        | some course =>
          if course.id = "" then none
          else
            match upsertErr student.id course.id row.score (getLetterGrade row.score) with
            | some _ => none
            | none => some (student.id, course.id, row.score, getLetterGrade row.score)

/-- The `for` loop of the CSV `handleUpload`: its entire observable outcome is
`(successCount, failedCount)` plus the list of grade rows upserted, in order.
No per-row information about failures is produced. -/
def csv_run (students : List Student) (courses : List Course)
    (upsertErr : String → String → ℚ → String → Option String) (rows : List CsvRow) :
    Nat × Nat × List (String × String × ℚ × String) :=
  rows.foldl (fun acc row =>
    match csvProcessRow students courses upsertErr row with
    | some g => (acc.1 + 1, acc.2.1, acc.2.2 ++ [g])
    | none => (acc.1, acc.2.1 + 1, acc.2.2)) (0, 0, [])

/-- Grading scale of the §8 example: A:[85,100] with 4.0, B:[70,84.99] with 3.0,
E:[0,69.99] with 0.0, for curriculum "2024". -/
def ex8Scales : List GradingScale :=
  [⟨"2024", "A", 85, 100, 4⟩, ⟨"2024", "B", 70, 8499/100, 3⟩, ⟨"2024", "E", 0, 6999/100, 0⟩]

/-- Courses of the §8 example: P with 3 credits, Q with 2 credits. -/
def ex8Courses : List Course :=
  [⟨"P", "P", "Course P", 3, 1, "2024"⟩, ⟨"Q", "Q", "Course Q", 2, 1, "2024"⟩]

/-- The single student X of the §8 example. -/
def ex8Students : List Student := [⟨"S1", "001", "X", "2024"⟩]

/-- Scores of the §8 example: 90 on P and 72 on Q. -/
def ex8Grades : List Grade := [⟨90, "A", "P", "S1"⟩, ⟨72, "B", "Q", "S1"⟩]

/-- Two students with identical scores on the §8 courses (the full-tie example). -/
def exTieStudents : List Student := [⟨"S1", "001", "X", "2024"⟩, ⟨"S2", "002", "Y", "2024"⟩]

/-- Identical §8 scores for both tied students. -/
def exTieGrades : List Grade :=
  [⟨90, "A", "P", "S1"⟩, ⟨72, "B", "Q", "S1"⟩, ⟨90, "A", "P", "S2"⟩, ⟨72, "B", "Q", "S2"⟩]

/-- Scores giving student S1 gpa 3.6 and student S2 gpa 3.0 (for the ranking
consistency witness). -/
def exPairGrades : List Grade :=
  [⟨90, "A", "P", "S1"⟩, ⟨72, "B", "Q", "S1"⟩, ⟨72, "B", "P", "S2"⟩, ⟨72, "B", "Q", "S2"⟩]

/-- The §8 population extended with a student Z having no score records. -/
def ex7Students : List Student := [⟨"S1", "001", "X", "2024"⟩, ⟨"S3", "003", "Z", "2024"⟩]

/-- A grading scale with a gap: no entry covers 75-79.99 (spec §8 example). -/
def exGapScales : List GradingScale :=
  [⟨"2024", "A", 85, 100, 4⟩, ⟨"2024", "A-", 80, 8499/100, 37/10⟩, ⟨"2024", "B", 0, 7499/100, 3⟩]

/-- A grading scale with overlapping entries: both cover the score 90. -/
def exOverlapScales : List GradingScale :=
  [⟨"2024", "A", 0, 100, 4⟩, ⟨"2024", "B", 80, 100, 3⟩]

/-- Students table for the upload examples. -/
def dbStudents : List Student := [⟨"ST1", "001", "X", "2024"⟩]

/-- Courses table for the upload examples. -/
def dbCourses : List Course := [⟨"C1", "CS101", "Intro", 3, 1, "2024"⟩]

/-- An upsert oracle that always succeeds. -/
def noErr : String → String → ℚ → String → Option String := fun _ _ _ _ => none

/-- The ranked aggregate of student X in the §8 example (rank 1). -/
def aggX : StudentGrade :=
  ⟨"S1", "001", "X", "2024", [("P", ⟨90, "A", 4, 3⟩), ("Q", ⟨72, "B", 3, 2⟩)],
    162, 18, 5, 18/5, 1⟩

/-- The ranked aggregate of student Y in the two-student ranking example
(gpa 3.0, rank 2). -/
def aggY : StudentGrade :=
  ⟨"S2", "002", "Y", "2024", [("P", ⟨72, "B", 3, 3⟩), ("Q", ⟨72, "B", 3, 2⟩)],
    144, 15, 5, 3, 2⟩

/-- An Excel upload row with an empty NIM (fails validation). -/
def exBadRow : UploadedRow := ⟨"", "CS101", "2024", 85, RowStatus.pending, none⟩

lemma lookupKey_upsert_self {β : Type} (k : String) (v : β) (m : List (String × β)) :
    lookupKey k (upsert k v m) = some v := by
  induction m with
  | nil => simp [upsert, lookupKey]
  | cons p rest ih =>
      by_cases h : p.1 = k
      · simp [upsert, lookupKey, h]
      · simp [upsert, lookupKey, h, ih]

lemma lookupKey_upsert_ne {β : Type} {j k : String} (h : j ≠ k) (v : β)
    (m : List (String × β)) : lookupKey k (upsert j v m) = lookupKey k m := by
  induction m with
  | nil => simp [upsert, lookupKey, h]
  | cons p rest ih =>
      by_cases hp : p.1 = j
      · simp [upsert, lookupKey, hp, h, ih]
      · simp only [upsert, hp, if_false]
        by_cases hk : p.1 = k
        · simp [lookupKey, hk]
        · simp [lookupKey, hk, ih]

lemma lookupKey_modifyAt_self {β : Type} (k : String) (f : β → β) (m : List (String × β)) :
    lookupKey k (modifyAt k f m) = (lookupKey k m).map f := by
  induction m with
  | nil => simp [modifyAt, lookupKey]
  | cons p rest ih =>
      by_cases h : p.1 = k
      · simp [modifyAt, lookupKey, h]
      · simp [modifyAt, lookupKey, h, ih]

lemma lookupKey_modifyAt_ne {β : Type} {j k : String} (h : j ≠ k) (f : β → β)
    (m : List (String × β)) : lookupKey k (modifyAt j f m) = lookupKey k m := by
  induction m with
  | nil => simp [modifyAt, lookupKey]
  | cons p rest ih =>
      by_cases hp : p.1 = j
      · simp [modifyAt, lookupKey, hp, h, ih]
      · simp only [modifyAt, hp, if_false]
        by_cases hk : p.1 = k
        · simp [lookupKey, hk]
        · simp [lookupKey, hk, ih]

lemma mem_snd_of_lookupKey {β : Type} {k : String} {v : β} :
    ∀ {m : List (String × β)}, lookupKey k m = some v → v ∈ m.map Prod.snd := by
  intro m
  induction m with
  | nil => intro h; simp [lookupKey] at h
  | cons p rest ih =>
      intro h
      by_cases hp : p.1 = k
      · simp [lookupKey, hp] at h
        simp [← h]
      · simp [lookupKey, hp] at h
        simp [ih h]

@[simp] lemma setRank_student_id (s : StudentGrade) (r : Nat) :
    (setRank s r).student_id = s.student_id := rfl

@[simp] lemma setRank_courses (s : StudentGrade) (r : Nat) :
    (setRank s r).courses = s.courses := rfl

@[simp] lemma setRank_totalScore (s : StudentGrade) (r : Nat) :
    (setRank s r).totalScore = s.totalScore := rfl

@[simp] lemma setRank_totalGradePoint (s : StudentGrade) (r : Nat) :
    (setRank s r).totalGradePoint = s.totalGradePoint := rfl

@[simp] lemma setRank_totalCredits (s : StudentGrade) (r : Nat) :
    (setRank s r).totalCredits = s.totalCredits := rfl

@[simp] lemma setRank_gpa (s : StudentGrade) (r : Nat) : (setRank s r).gpa = s.gpa := rfl

@[simp] lemma setRank_rank (s : StudentGrade) (r : Nat) : (setRank s r).rank = r := rfl

lemma aggFold (l : List (String × CourseGrade)) :
    ∀ t : ℚ × ℚ × ℚ,
      l.foldl (fun (t : ℚ × ℚ × ℚ) p =>
          (t.1 + p.2.score, t.2.1 + p.2.grade_point * p.2.credits, t.2.2 + p.2.credits)) t =
        (t.1 + (l.map fun p => p.2.score).sum,
         t.2.1 + (l.map fun p => p.2.grade_point * p.2.credits).sum,
         t.2.2 + (l.map fun p => p.2.credits).sum) := by
  induction l with
  | nil => intro t; simp
  | cons p rest ih =>
      intro t
      simp only [List.foldl_cons, List.map_cons, List.sum_cons, ih, Prod.mk.injEq]
      refine ⟨by ring, by ring, by ring⟩

lemma aggregateStudent_eq (s : StudentGrade) :
    aggregateStudent s =
      { s with
        totalScore := (s.courses.map fun p => p.2.score).sum,
        totalGradePoint := (s.courses.map fun p => p.2.grade_point * p.2.credits).sum,
        totalCredits := (s.courses.map fun p => p.2.credits).sum,
        gpa := if 0 < (s.courses.map fun p => p.2.credits).sum then
            (s.courses.map fun p => p.2.grade_point * p.2.credits).sum /
              (s.courses.map fun p => p.2.credits).sum
          else 0 } := by
  unfold aggregateStudent
  simp only [aggFold, zero_add, gt_iff_lt]

lemma assignRanksFrom_length (l : List StudentGrade) :
    ∀ i, (assignRanksFrom i l).length = l.length := by
  induction l with
  | nil => intro i; rfl
  | cons s rest ih => intro i; simp [assignRanksFrom, ih]

lemma assignRanksFrom_get (l : List StudentGrade) :
    ∀ i j (h : j < (assignRanksFrom i l).length) (h' : j < l.length),
      (assignRanksFrom i l).get ⟨j, h⟩ = setRank (l.get ⟨j, h'⟩) (i + j + 1) := by
  induction l with
  | nil => intro i j h h'; simp at h'
  | cons s rest ih =>
      intro i j h h'
      cases j with
      | zero => simp [assignRanksFrom]
      | succ j' =>
          have hh : j' < (assignRanksFrom (i + 1) rest).length := by
            simpa [assignRanksFrom, assignRanksFrom_length] using h
          have hh' : j' < rest.length := by simpa using h'
          have := ih (i + 1) j' hh hh'
          simp only [assignRanksFrom, List.get_cons_succ]
          rw [this]
          congr 1
          omega

lemma assignRanks_length (l : List StudentGrade) : (assignRanks l).length = l.length :=
  assignRanksFrom_length l 0

lemma assignRanks_get (l : List StudentGrade) (j : Nat) (h : j < (assignRanks l).length)
    (h' : j < l.length) : (assignRanks l).get ⟨j, h⟩ = setRank (l.get ⟨j, h'⟩) (j + 1) := by
  have := assignRanksFrom_get l 0 j h h'
  simpa using this

lemma exists_of_mem_assignRanks {s : StudentGrade} {l : List StudentGrade}
    (h : s ∈ assignRanks l) : ∃ t ∈ l, ∃ r, s = setRank t r := by
  rcases List.mem_iff_get.mp h with ⟨⟨j, hj⟩, hget⟩
  have h' : j < l.length := by
    have := assignRanks_length l
    omega
  refine ⟨l.get ⟨j, h'⟩, List.get_mem l _ _, j + 1, ?_⟩
  rw [← hget, assignRanks_get l j hj h']

lemma mem_assignRanks_of_mem {t : StudentGrade} {l : List StudentGrade} (h : t ∈ l) :
    ∃ r, setRank t r ∈ assignRanks l := by
  rcases List.mem_iff_get.mp h with ⟨⟨j, hj⟩, hget⟩
  have hj' : j < (assignRanks l).length := by
    have := assignRanks_length l
    omega
  refine ⟨j + 1, ?_⟩
  have := assignRanks_get l j hj' hj
  rw [hget] at this
  rw [← this]
  exact List.get_mem _ _ _

lemma sortLE_iff (a b : StudentGrade) : sortLE a b ↔ rankKeyLE a b := by
  unfold sortLE sortCompare rankKeyLE
  by_cases h1 : b.gpa = a.gpa
  · rw [if_neg (not_not_intro h1)]
    by_cases h2 : b.totalGradePoint = a.totalGradePoint
    · rw [if_neg (not_not_intro h2)]
      constructor
      · intro h3
        exact Or.inr ⟨h1, Or.inr ⟨h2, sub_nonpos.mp h3⟩⟩
      · rintro (hlt | ⟨-, hlt | ⟨-, hle⟩⟩)
        · exact absurd h1 (ne_of_lt hlt)
        · exact absurd h2 (ne_of_lt hlt)
        · exact sub_nonpos.mpr hle
    · rw [if_pos h2]
      constructor
      · intro h3
        exact Or.inr ⟨h1, Or.inl (lt_of_le_of_ne (sub_nonpos.mp h3) h2)⟩
      · rintro (hlt | ⟨-, hlt | ⟨heq, -⟩⟩)
        · exact absurd h1 (ne_of_lt hlt)
        · exact sub_nonpos.mpr (le_of_lt hlt)
        · exact absurd heq h2
  · rw [if_pos h1]
    constructor
    · intro h3
      exact Or.inl (lt_of_le_of_ne (sub_nonpos.mp h3) h1)
    · rintro (hlt | ⟨heq, -⟩)
      · exact sub_nonpos.mpr (le_of_lt hlt)
      · exact absurd heq h1

lemma rankKeyLE_total (a b : StudentGrade) : rankKeyLE a b ∨ rankKeyLE b a := by
  unfold rankKeyLE
  rcases lt_trichotomy a.gpa b.gpa with h | h | h
  · exact Or.inr (Or.inl h)
  · rcases lt_trichotomy a.totalGradePoint b.totalGradePoint with h2 | h2 | h2
    · exact Or.inr (Or.inr ⟨h, Or.inl h2⟩)
    · rcases le_total b.totalScore a.totalScore with h3 | h3
      · exact Or.inl (Or.inr ⟨h.symm, Or.inr ⟨h2.symm, h3⟩⟩)
      · exact Or.inr (Or.inr ⟨h, Or.inr ⟨h2, h3⟩⟩)
    · exact Or.inl (Or.inr ⟨h.symm, Or.inl h2⟩)
  · exact Or.inl (Or.inl h)

lemma rankKeyLE_trans {a b c : StudentGrade} (h1 : rankKeyLE a b) (h2 : rankKeyLE b c) :
    rankKeyLE a c := by
  unfold rankKeyLE at *
  rcases h1 with hb | ⟨hbe, h1'⟩
  · rcases h2 with hc | ⟨hce, _⟩
    · exact Or.inl (lt_trans hc hb)
    · exact Or.inl (hce ▸ hb)
  · rcases h2 with hc | ⟨hce, h2'⟩
    · exact Or.inl (hbe ▸ hc)
    · refine Or.inr ⟨hce.trans hbe, ?_⟩
      rcases h1' with hb2 | ⟨hb2e, hb3⟩
      · rcases h2' with hc2 | ⟨hc2e, _⟩
        · exact Or.inl (lt_trans hc2 hb2)
        · exact Or.inl (hc2e ▸ hb2)
      · rcases h2' with hc2 | ⟨hc2e, hc3⟩
        · exact Or.inl (hb2e ▸ hc2)
        · exact Or.inr ⟨hc2e.trans hb2e, le_trans hc3 hb3⟩

instance : IsTotal StudentGrade sortLE :=
  ⟨fun a b => by
    rw [sortLE_iff, sortLE_iff]
    exact rankKeyLE_total a b⟩

instance : IsTrans StudentGrade sortLE :=
  ⟨fun a b c h1 h2 => by
    rw [sortLE_iff] at h1 h2 ⊢
    exact rankKeyLE_trans h1 h2⟩

lemma sortStudents_sorted (l : List StudentGrade) :
    List.Pairwise rankKeyLE (sortStudents l) := by
  have h := List.sorted_insertionSort sortLE l
  exact h.imp fun hab => (sortLE_iff _ _).mp hab

lemma sortStudents_perm (l : List StudentGrade) : (sortStudents l).Perm l :=
  List.perm_insertionSort sortLE l

lemma rankKeyLE_gpa_le {a b : StudentGrade} (h : rankKeyLE a b) : b.gpa ≤ a.gpa := by
  rcases h with h | ⟨h, _⟩
  · exact le_of_lt h
  · exact le_of_eq h

lemma studentsFoldl_preserved {k : String} :
    ∀ (ss : List Student) (m : List (String × StudentGrade)),
      (∃ v, lookupKey k m = some v ∧ v.student_id = k ∧ v.courses = []) →
      ∃ v, lookupKey k (ss.foldl (fun m st => upsert st.id (initStudent st) m) m) = some v ∧
        v.student_id = k ∧ v.courses = [] := by
  intro ss
  induction ss with
  | nil => intro m h; simpa using h
  | cons st rest ih =>
      intro m h
      simp only [List.foldl_cons]
      apply ih
      by_cases hk : st.id = k
      · subst hk
        exact ⟨initStudent st, lookupKey_upsert_self _ _ _, rfl, rfl⟩
      · rw [lookupKey_upsert_ne hk]
        exact h

lemma lookupKey_buildStudentMap {st : Student} :
    ∀ (ss : List Student), st ∈ ss →
      ∃ v, lookupKey st.id (buildStudentMap ss) = some v ∧ v.student_id = st.id ∧
        v.courses = [] := by
  have main : ∀ (ss : List Student) (m : List (String × StudentGrade)), st ∈ ss →
      ∃ v, lookupKey st.id (ss.foldl (fun m st => upsert st.id (initStudent st) m) m) = some v ∧
        v.student_id = st.id ∧ v.courses = [] := by
    intro ss
    induction ss with
    | nil => intro m h; simp at h
    | cons st' rest ih =>
        intro m h
        simp only [List.foldl_cons]
        rcases List.mem_cons.mp h with heq | hmem
        · subst heq
          apply studentsFoldl_preserved
          exact ⟨initStudent st, lookupKey_upsert_self _ _ _, rfl, rfl⟩
        · exact ih _ hmem
  intro ss h
  exact main ss [] h

lemma lookupKey_applyGrade_ne {k : String} {g : Grade} (hne : g.student_id ≠ k)
    (coursesData : List Course) (scales : List GradingScale) (curriculum : String)
    (m : List (String × StudentGrade)) :
    lookupKey k (applyGrade coursesData scales curriculum m g) = lookupKey k m := by
  unfold applyGrade
  cases coursesData.find? (fun c => c.id == g.course_id) with
  | none => rfl
  | some course =>
      by_cases hs : (lookupKey g.student_id m).isSome
      · simp only [hs, if_true]
        exact lookupKey_modifyAt_ne hne _ _
      · dsimp only
        rw [if_neg hs]

lemma applyGrade_exists {k : String} (coursesData : List Course) (scales : List GradingScale)
    (curriculum : String) (g : Grade) (m : List (String × StudentGrade))
    (h : ∃ v, lookupKey k m = some v ∧ v.student_id = k) :
    ∃ v, lookupKey k (applyGrade coursesData scales curriculum m g) = some v ∧
      v.student_id = k := by
  by_cases hk : g.student_id = k
  · rcases h with ⟨v, hv, hid⟩
    unfold applyGrade
    cases coursesData.find? (fun c => c.id == g.course_id) with
    | none => exact ⟨v, hv, hid⟩
    | some course =>
        subst hk
        have hs : (lookupKey g.student_id m).isSome := by rw [hv]; rfl
        simp only [hs, if_true]
        rw [lookupKey_modifyAt_self, hv]
        exact ⟨_, rfl, hid⟩
  · rw [lookupKey_applyGrade_ne hk]
    exact h

lemma gradesFoldl_exists {k : String} (coursesData : List Course) (scales : List GradingScale)
    (curriculum : String) :
    ∀ (gs : List Grade) (m : List (String × StudentGrade)),
      (∃ v, lookupKey k m = some v ∧ v.student_id = k) →
      ∃ v, lookupKey k (gs.foldl (applyGrade coursesData scales curriculum) m) = some v ∧
        v.student_id = k := by
  intro gs
  induction gs with
  | nil => intro m h; simpa using h
  | cons g rest ih =>
      intro m h
      simp only [List.foldl_cons]
      exact ih _ (applyGrade_exists coursesData scales curriculum g m h)

lemma gradesFoldl_untouched {k : String} (coursesData : List Course) (scales : List GradingScale)
    (curriculum : String) :
    ∀ (gs : List Grade) (m : List (String × StudentGrade)),
      (∀ g ∈ gs, g.student_id ≠ k) →
      lookupKey k (gs.foldl (applyGrade coursesData scales curriculum) m) = lookupKey k m := by
  intro gs
  induction gs with
  | nil => intro m _; rfl
  | cons g rest ih =>
      intro m h
      simp only [List.foldl_cons]
      rw [ih _ fun g' hg' => h g' (List.mem_cons_of_mem _ hg')]
      exact lookupKey_applyGrade_ne (h g (List.mem_cons_self _ _)) _ _ _ _

lemma exists_agg_of_mem_loadReport {s : StudentGrade} {coursesData : List Course}
    {studentsData : List Student} {gradesData : List Grade} {scales : List GradingScale}
    {curriculum : String}
    (h : s ∈ loadReport coursesData studentsData gradesData scales curriculum) :
    ∃ u r, s = setRank (aggregateStudent u) r := by
  rcases exists_of_mem_assignRanks h with ⟨t, ht, r, hs⟩
  have ht' : t ∈ aggList coursesData studentsData gradesData scales curriculum :=
    (sortStudents_perm _).mem_iff.mp ht
  rcases List.mem_map.mp ht' with ⟨u, _, hu⟩
  exact ⟨u, r, by rw [hs, hu]⟩

lemma aggregateStudent_totalScore (s : StudentGrade) :
    (aggregateStudent s).totalScore = (s.courses.map fun p => p.2.score).sum := by
  rw [aggregateStudent_eq]

lemma aggregateStudent_totalGradePoint (s : StudentGrade) :
    (aggregateStudent s).totalGradePoint =
      (s.courses.map fun p => p.2.grade_point * p.2.credits).sum := by
  rw [aggregateStudent_eq]

lemma aggregateStudent_totalCredits (s : StudentGrade) :
    (aggregateStudent s).totalCredits = (s.courses.map fun p => p.2.credits).sum := by
  rw [aggregateStudent_eq]

lemma aggregateStudent_gpa (s : StudentGrade) :
    (aggregateStudent s).gpa =
      if 0 < (aggregateStudent s).totalCredits then
        (aggregateStudent s).totalGradePoint / (aggregateStudent s).totalCredits
      else 0 := by
  rw [aggregateStudent_eq]

lemma aggregateStudent_student_id (s : StudentGrade) :
    (aggregateStudent s).student_id = s.student_id := rfl

lemma aggregateStudent_courses (s : StudentGrade) :
    (aggregateStudent s).courses = s.courses := rfl

lemma rankKeyLE_setRank (a b : StudentGrade) (r r' : Nat) :
    rankKeyLE (setRank a r) (setRank b r') ↔ rankKeyLE a b := by
  simp [rankKeyLE]

lemma loadReport_length (coursesData : List Course) (studentsData : List Student)
    (gradesData : List Grade) (scales : List GradingScale) (curriculum : String) :
    (loadReport coursesData studentsData gradesData scales curriculum).length =
      (sortStudents (aggList coursesData studentsData gradesData scales curriculum)).length :=
  assignRanks_length _

lemma loadReport_rank_get (coursesData : List Course) (studentsData : List Student)
    (gradesData : List Grade) (scales : List GradingScale) (curriculum : String) (i : Nat)
    (h : i < (loadReport coursesData studentsData gradesData scales curriculum).length) :
    ((loadReport coursesData studentsData gradesData scales curriculum).get ⟨i, h⟩).rank =
      i + 1 := by
  have h' : i < (sortStudents (aggList coursesData studentsData gradesData scales
      curriculum)).length := by
    rw [← loadReport_length]
    exact h
  have heq := assignRanks_get (sortStudents (aggList coursesData studentsData gradesData
    scales curriculum)) i h h'
  show ((assignRanks (sortStudents (aggList coursesData studentsData gradesData scales
    curriculum))).get ⟨i, h⟩).rank = i + 1
  rw [heq]
  simp

lemma loadReport_pairwise (coursesData : List Course) (studentsData : List Student)
    (gradesData : List Grade) (scales : List GradingScale) (curriculum : String) :
    List.Pairwise rankKeyLE (loadReport coursesData studentsData gradesData scales
      curriculum) := by
  have hs := sortStudents_sorted (aggList coursesData studentsData gradesData scales curriculum)
  rw [List.pairwise_iff_get] at hs ⊢
  intro i j hij
  have hi' : i.val < (sortStudents (aggList coursesData studentsData gradesData scales
      curriculum)).length := by
    rw [← loadReport_length]
    exact i.isLt
  have hj' : j.val < (sortStudents (aggList coursesData studentsData gradesData scales
      curriculum)).length := by
    rw [← loadReport_length]
    exact j.isLt
  have heqi := assignRanks_get (sortStudents (aggList coursesData studentsData gradesData
    scales curriculum)) i.val i.isLt hi'
  have heqj := assignRanks_get (sortStudents (aggList coursesData studentsData gradesData
    scales curriculum)) j.val j.isLt hj'
  show rankKeyLE
    ((assignRanks (sortStudents (aggList coursesData studentsData gradesData scales
      curriculum))).get ⟨i.val, i.isLt⟩)
    ((assignRanks (sortStudents (aggList coursesData studentsData gradesData scales
      curriculum))).get ⟨j.val, j.isLt⟩)
  rw [heqi, heqj, rankKeyLE_setRank]
  exact hs ⟨i.val, hi'⟩ ⟨j.val, hj'⟩ hij

lemma foldl_push_eq_map {α β : Type} (f : α → β) :
    ∀ (rows : List α) (init : List β),
      rows.foldl (fun acc row => acc ++ [f row]) init = init ++ rows.map f := by
  intro rows
  induction rows with
  | nil => intro init; simp
  | cons row rest ih => intro init; simp [ih]

lemma excel_handleUpload_eq_map (students : List Student) (courses : List Course)
    (upsertErr : String → String → ℚ → String → Option String) (rows : List UploadedRow) :
    excel_handleUpload students courses upsertErr rows =
      rows.map (processRow students courses upsertErr) := by
  unfold excel_handleUpload
  rw [foldl_push_eq_map]
  rfl

lemma csv_run_foldl (students : List Student) (courses : List Course)
    (upsertErr : String → String → ℚ → String → Option String) :
    ∀ (rows : List CsvRow) (a b : Nat) (l : List (String × String × ℚ × String)),
      (rows.foldl (fun acc row =>
          match csvProcessRow students courses upsertErr row with
          | some g => (acc.1 + 1, acc.2.1, acc.2.2 ++ [g])
          | none => (acc.1, acc.2.1 + 1, acc.2.2)) (a, b, l)).1 +
        (rows.foldl (fun acc row =>
          match csvProcessRow students courses upsertErr row with
          | some g => (acc.1 + 1, acc.2.1, acc.2.2 ++ [g])
          | none => (acc.1, acc.2.1 + 1, acc.2.2)) (a, b, l)).2.1 = a + b + rows.length ∧
      (rows.foldl (fun acc row =>
          match csvProcessRow students courses upsertErr row with
          | some g => (acc.1 + 1, acc.2.1, acc.2.2 ++ [g])
          | none => (acc.1, acc.2.1 + 1, acc.2.2)) (a, b, l)).2.2 =
        l ++ rows.filterMap (csvProcessRow students courses upsertErr) := by
  intro rows
  induction rows with
  | nil => intro a b l; simp
  | cons row rest ih =>
      intro a b l
      simp only [List.foldl_cons, List.length_cons, List.filterMap_cons]
      cases hrow : csvProcessRow students courses upsertErr row with
      | some g =>
          rcases ih (a + 1) b (l ++ [g]) with ⟨ih1, ih2⟩
          refine ⟨by rw [ih1]; omega, by rw [ih2]; simp⟩
      | none =>
          rcases ih a (b + 1) l with ⟨ih1, ih2⟩
          refine ⟨by rw [ih1]; omega, by rw [ih2]⟩

lemma csv_run_counts (students : List Student) (courses : List Course)
    (upsertErr : String → String → ℚ → String → Option String) (rows : List CsvRow) :
    (csv_run students courses upsertErr rows).1 +
        (csv_run students courses upsertErr rows).2.1 = rows.length ∧
      (csv_run students courses upsertErr rows).2.2 =
        rows.filterMap (csvProcessRow students courses upsertErr) := by
  have h := csv_run_foldl students courses upsertErr rows 0 0 []
  simpa [csv_run] using h

/-- C1: every aggregate produced by `loadReport` has `totalScore` equal to the
sum of the student's in-scope raw scores, `totalGradePoint` equal to the sum of
`gradePoint * credits` over their courses, and `totalCredits` equal to the sum
of those credits; and on the §8 example (P: 3 credits, score 90 resolving to
4.0; Q: 2 credits, score 72 resolving to 3.0) the result is
totalWeightedGradePoint 18, totalCredits 5, gpa 3.6 = 18/5. -/
theorem aggregate_totals_correct :
    (∀ (coursesData : List Course) (studentsData : List Student) (gradesData : List Grade)
        (scales : List GradingScale) (curriculum : String) (s : StudentGrade),
        s ∈ loadReport coursesData studentsData gradesData scales curriculum →
          s.totalScore = (s.courses.map fun p => p.2.score).sum ∧
          s.totalGradePoint = (s.courses.map fun p => p.2.grade_point * p.2.credits).sum ∧
          s.totalCredits = (s.courses.map fun p => p.2.credits).sum) ∧
      getGradePoint ex8Scales 90 "2024" = 4 ∧
      getGradePoint ex8Scales 72 "2024" = 3 ∧
      (loadReport ex8Courses ex8Students ex8Grades ex8Scales "2024").map
          (fun s => (s.totalScore, s.totalGradePoint, s.totalCredits, s.gpa)) =
        [(162, 18, 5, 18/5)] := by
  refine ⟨?_, by with_unfolding_all decide, by with_unfolding_all decide,
    by with_unfolding_all decide⟩
  intro coursesData studentsData gradesData scales curriculum s hs
  rcases exists_agg_of_mem_loadReport hs with ⟨u, r, rfl⟩
  refine ⟨?_, ?_, ?_⟩ <;>
    simp [aggregateStudent_totalScore, aggregateStudent_totalGradePoint,
      aggregateStudent_totalCredits, aggregateStudent_courses]

/-- Witness for C1 at the §8 example: the aggregate of student X is in the
report and satisfies the three sum equations. -/
theorem aggregate_totals_correct_witness :
    aggX ∈ loadReport ex8Courses ex8Students ex8Grades ex8Scales "2024" ∧
      (aggX.totalScore = (aggX.courses.map fun p => p.2.score).sum ∧
       aggX.totalGradePoint = (aggX.courses.map fun p => p.2.grade_point * p.2.credits).sum ∧
       aggX.totalCredits = (aggX.courses.map fun p => p.2.credits).sum) :=
  ⟨by with_unfolding_all decide,
    aggregate_totals_correct.1 ex8Courses ex8Students ex8Grades ex8Scales "2024" aggX
      (by with_unfolding_all decide)⟩

/-- C2: every aggregate produced by the engine has
`gpa = totalGradePoint / totalCredits` when `totalCredits > 0`, and `gpa = 0`
when `totalCredits = 0`. -/
theorem gpa_invariant_holds (coursesData : List Course) (studentsData : List Student)
    (gradesData : List Grade) (scales : List GradingScale) (curriculum : String)
    (s : StudentGrade)
    (hs : s ∈ loadReport coursesData studentsData gradesData scales curriculum) :
    (0 < s.totalCredits → s.gpa = s.totalGradePoint / s.totalCredits) ∧
      (s.totalCredits = 0 → s.gpa = 0) := by
  rcases exists_agg_of_mem_loadReport hs with ⟨u, r, rfl⟩
  constructor
  · intro h
    simp only [setRank_totalCredits] at h
    simp only [setRank_gpa, setRank_totalGradePoint, setRank_totalCredits]
    rw [aggregateStudent_gpa, if_pos h]
  · intro h
    simp only [setRank_totalCredits] at h
    simp only [setRank_gpa]
    rw [aggregateStudent_gpa, if_neg]
    rw [h]
    exact lt_irrefl 0

/-- Witness for C2 at the §8 example aggregate. -/
theorem gpa_invariant_holds_witness :
    aggX ∈ loadReport ex8Courses ex8Students ex8Grades ex8Scales "2024" ∧
      ((0 < aggX.totalCredits → aggX.gpa = aggX.totalGradePoint / aggX.totalCredits) ∧
        (aggX.totalCredits = 0 → aggX.gpa = 0)) :=
  ⟨by with_unfolding_all decide,
    gpa_invariant_holds ex8Courses ex8Students ex8Grades ex8Scales "2024" aggX
      (by with_unfolding_all decide)⟩

/-- C3: the ranked output is sorted best-first by gpa, then totalGradePoint,
then totalScore (descending lexicographic), and for any two aggregates A, B in
the output, if A.gpa > B.gpa then A.rank < B.rank. -/
theorem ranking_consistent_with_sort (coursesData : List Course)
    (studentsData : List Student) (gradesData : List Grade) (scales : List GradingScale)
    (curriculum : String) :
    List.Pairwise rankKeyLE (loadReport coursesData studentsData gradesData scales
        curriculum) ∧
      ∀ A ∈ loadReport coursesData studentsData gradesData scales curriculum,
        ∀ B ∈ loadReport coursesData studentsData gradesData scales curriculum,
          B.gpa < A.gpa → A.rank < B.rank := by
  refine ⟨loadReport_pairwise _ _ _ _ _, ?_⟩
  intro A hA B hB hgpa
  rcases List.mem_iff_get.mp hA with ⟨i, hi⟩
  rcases List.mem_iff_get.mp hB with ⟨j, hj⟩
  have hrankA : A.rank = i.val + 1 := by
    rw [← hi]
    exact loadReport_rank_get coursesData studentsData gradesData scales curriculum i.val i.isLt
  have hrankB : B.rank = j.val + 1 := by
    rw [← hj]
    exact loadReport_rank_get coursesData studentsData gradesData scales curriculum j.val j.isLt
  have hij : i.val < j.val := by
    rcases lt_trichotomy i.val j.val with h | h | h
    · exact h
    · exfalso
      have hAB : A = B := by
        rw [← hi, ← hj]
        congr 1
        exact Fin.ext h
      rw [hAB] at hgpa
      exact lt_irrefl _ hgpa
    · exfalso
      have hp := loadReport_pairwise coursesData studentsData gradesData scales curriculum
      rw [List.pairwise_iff_get] at hp
      have hba := hp j i h
      rw [hi, hj] at hba
      exact absurd hgpa (not_lt.mpr (rankKeyLE_gpa_le hba))
  rw [hrankA, hrankB]
  omega

/-- Witness for C3: in the two-student example, X (gpa 3.6) is ranked above
Y (gpa 3.0). -/
theorem ranking_consistent_with_sort_witness :
    aggX ∈ loadReport ex8Courses exTieStudents exPairGrades ex8Scales "2024" ∧
      aggY ∈ loadReport ex8Courses exTieStudents exPairGrades ex8Scales "2024" ∧
      aggY.gpa < aggX.gpa ∧ aggX.rank < aggY.rank :=
  ⟨by with_unfolding_all decide, by with_unfolding_all decide, by with_unfolding_all decide,
    (ranking_consistent_with_sort ex8Courses exTieStudents exPairGrades ex8Scales "2024").2
      aggX (by with_unfolding_all decide) aggY (by with_unfolding_all decide)
      (by with_unfolding_all decide)⟩

/-- C4: ranks are strictly sequential 1, 2, 3, ... by position in the sorted
order, with no shared ranks; in particular two students identical on gpa,
totalGradePoint and totalScore get consecutive ranks 1 and 2, not an equal
rank. -/
theorem sequential_ranks :
    (∀ (coursesData : List Course) (studentsData : List Student) (gradesData : List Grade)
        (scales : List GradingScale) (curriculum : String) (i : Nat)
        (h : i < (loadReport coursesData studentsData gradesData scales curriculum).length),
        ((loadReport coursesData studentsData gradesData scales curriculum).get
          ⟨i, h⟩).rank = i + 1) ∧
      (loadReport ex8Courses exTieStudents exTieGrades ex8Scales "2024").map
          (fun s => (s.gpa, s.totalGradePoint, s.totalScore, s.rank)) =
        [(18/5, 18, 162, 1), (18/5, 18, 162, 2)] :=
  ⟨fun coursesData studentsData gradesData scales curriculum i h =>
      loadReport_rank_get coursesData studentsData gradesData scales curriculum i h,
    by with_unfolding_all decide⟩

/-- Witness for C4: the first entry of the tied-students report has rank 1. -/
theorem sequential_ranks_witness :
    ((loadReport ex8Courses exTieStudents exTieGrades ex8Scales "2024").get
      ⟨0, by with_unfolding_all decide⟩).rank = 0 + 1 :=
  sequential_ranks.1 ex8Courses exTieStudents exTieGrades ex8Scales "2024" 0 _

/-- Counterexample to C5: at score 77 under a scale with no entry covering
75-79 (no row matches, first conjunct), the client `getGradePoint` silently
returns grade point 0 and the SQL `get_letter_grade` returns 'E' — the exact
silent defaults the claim says do not happen.  No rejected-record list or
`UnresolvableGradeError` exists anywhere in the code: the functions return
plain values. -/
theorem gap_defaults_counterexample :
    scaleMatches exGapScales 77 "2024" = [] ∧
      getGradePoint exGapScales 77 "2024" = 0 ∧
      get_letter_grade exGapScales 77 "2024" = "E" ∧
      get_grade_point exGapScales 77 "2024" = 0 := by
  with_unfolding_all decide

/-- C5 (amended): when no grading-scale entry of the curriculum covers a
score, grade resolution silently defaults — the client `getGradePoint` returns
0, the SQL `get_letter_grade` returns 'E' and `get_grade_point` returns 0 —
and no explicit "no grade resolvable" condition or `UnresolvableGradeError`
is produced. -/
theorem resolveGrade_gap_defaults (scales : List GradingScale) (score : ℚ)
    (curriculum : String) (h : scaleMatches scales score curriculum = []) :
    getGradePoint scales score curriculum = 0 ∧
      get_letter_grade scales score curriculum = "E" ∧
      get_grade_point scales score curriculum = 0 := by
  unfold getGradePoint get_letter_grade get_grade_point
  rw [h]
  exact ⟨rfl, rfl, rfl⟩

/-- Witness for the amended C5 at the gap example (score 77). -/
theorem resolveGrade_gap_defaults_witness :
    scaleMatches exGapScales 77 "2024" = [] ∧
      (getGradePoint exGapScales 77 "2024" = 0 ∧
        get_letter_grade exGapScales 77 "2024" = "E" ∧
        get_grade_point exGapScales 77 "2024" = 0) :=
  ⟨by with_unfolding_all decide,
    resolveGrade_gap_defaults exGapScales 77 "2024" (by with_unfolding_all decide)⟩

/-- Counterexample to C6: with two overlapping entries both covering score 90,
the spec's descending-minScore first-match rule picks the higher bracket
(grade point 3 of entry B here), but the source's `getGradePoint` returns 0:
its `.maybeSingle()` lookup yields no data when more than one row matches. -/
theorem overlap_resolution_counterexample :
    resolveGradeSpec exOverlapScales 90 "2024" = some ("B", 3) ∧
      getGradePoint exOverlapScales 90 "2024" = 0 ∧
      getGradePoint exOverlapScales 90 "2024" ≠ 3 := by
  with_unfolding_all decide

/-- C6 (amended): when a score is covered by more than one grading-scale entry
of its curriculum, the client `getGradePoint` returns 0 (the `.maybeSingle()`
query yields no data for multiple rows); it does not return the first match by
descending `minScore`.  (The SQL functions pick an unspecified matching row:
`LIMIT 1` with no `ORDER BY`.) -/
theorem overlap_yields_zero (scales : List GradingScale) (score : ℚ) (curriculum : String)
    (h : 2 ≤ (scaleMatches scales score curriculum).length) :
    getGradePoint scales score curriculum = 0 := by
  unfold getGradePoint
  cases hm : scaleMatches scales score curriculum with
  | nil => rw [hm] at h; simp at h
  | cons x rest =>
      cases rest with
      | nil => rw [hm] at h; simp at h
      | cons y rest2 => rfl

/-- Witness for the amended C6 at the overlap example (score 90, two matches). -/
theorem overlap_yields_zero_witness :
    2 ≤ (scaleMatches exOverlapScales 90 "2024").length ∧
      getGradePoint exOverlapScales 90 "2024" = 0 :=
  ⟨by with_unfolding_all decide,
    overlap_yields_zero exOverlapScales 90 "2024" (by with_unfolding_all decide)⟩

/-- C7: every student of the requested population appears in the ranked
output; a student with no score records in scope gets an aggregate with
totalScore = 0, totalCredits = 0 and gpa = 0, and is never omitted. -/
theorem every_student_ranked (coursesData : List Course) (studentsData : List Student)
    (gradesData : List Grade) (scales : List GradingScale) (curriculum : String)
    (st : Student) (hst : st ∈ studentsData) :
    ∃ s, s ∈ loadReport coursesData studentsData gradesData scales curriculum ∧
      s.student_id = st.id ∧
      ((∀ g ∈ gradesData, g.student_id ≠ st.id) →
        s.totalScore = 0 ∧ s.totalCredits = 0 ∧ s.gpa = 0) := by
  by_cases hg : ∀ g ∈ gradesData, g.student_id ≠ st.id
  · rcases lookupKey_buildStudentMap studentsData hst with ⟨v, hv, hid, hcs⟩
    have h2 : lookupKey st.id (gradesData.foldl (applyGrade coursesData scales curriculum)
        (buildStudentMap studentsData)) = some v := by
      rw [gradesFoldl_untouched coursesData scales curriculum gradesData _ hg, hv]
    have hmem2 : aggregateStudent v ∈
        aggList coursesData studentsData gradesData scales curriculum :=
      List.mem_map_of_mem _ (mem_snd_of_lookupKey h2)
    have hmem3 : aggregateStudent v ∈
        sortStudents (aggList coursesData studentsData gradesData scales curriculum) :=
      (sortStudents_perm _).mem_iff.mpr hmem2
    rcases mem_assignRanks_of_mem hmem3 with ⟨r, hmem4⟩
    refine ⟨setRank (aggregateStudent v) r, hmem4, ?_, ?_⟩
    · simp [aggregateStudent_student_id, hid]
    · intro _
      refine ⟨?_, ?_, ?_⟩
      · simp [aggregateStudent_totalScore, aggregateStudent_courses, hcs]
      · simp [aggregateStudent_totalCredits, aggregateStudent_courses, hcs]
      · simp only [setRank_gpa]
        rw [aggregateStudent_gpa,
          if_neg (by rw [aggregateStudent_totalCredits, hcs]; simp)]
  · rcases lookupKey_buildStudentMap studentsData hst with ⟨v, hv, hid, -⟩
    rcases gradesFoldl_exists coursesData scales curriculum gradesData
      (buildStudentMap studentsData) ⟨v, hv, hid⟩ with ⟨v', hv', hid'⟩
    have hmem2 : aggregateStudent v' ∈
        aggList coursesData studentsData gradesData scales curriculum :=
      List.mem_map_of_mem _ (mem_snd_of_lookupKey hv')
    have hmem3 : aggregateStudent v' ∈
        sortStudents (aggList coursesData studentsData gradesData scales curriculum) :=
      (sortStudents_perm _).mem_iff.mpr hmem2
    rcases mem_assignRanks_of_mem hmem3 with ⟨r, hmem4⟩
    exact ⟨setRank (aggregateStudent v') r, hmem4,
      by simp [aggregateStudent_student_id, hid'], fun hgg => absurd hgg hg⟩

/-- Witness for C7: student Z has no score records but is still in the
population, so the theorem applies to them. -/
theorem every_student_ranked_witness :
    (⟨"S3", "003", "Z", "2024"⟩ : Student) ∈ ex7Students ∧
      ∃ s, s ∈ loadReport ex8Courses ex7Students ex8Grades ex8Scales "2024" ∧
        s.student_id = (⟨"S3", "003", "Z", "2024"⟩ : Student).id ∧
        ((∀ g ∈ ex8Grades, g.student_id ≠ (⟨"S3", "003", "Z", "2024"⟩ : Student).id) →
          s.totalScore = 0 ∧ s.totalCredits = 0 ∧ s.gpa = 0) :=
  ⟨by with_unfolding_all decide,
    every_student_ranked ex8Courses ex7Students ex8Grades ex8Scales "2024"
      ⟨"S3", "003", "Z", "2024"⟩ (by with_unfolding_all decide)⟩

/-- Counterexample to C8: two different one-row CSV batches — one failing
because the student is missing, one failing because the course is missing —
produce the very same output (0 successes, 1 failure, nothing upserted), so
the CSV upload path does not report the failing record's reason: distinct
failure reasons are indistinguishable in its result. -/
theorem csv_failure_reason_counterexample :
    ([⟨"999", "CS101", 85⟩] : List CsvRow) ≠ [⟨"001", "NOPE", 85⟩] ∧
      csv_run dbStudents dbCourses noErr [⟨"999", "CS101", 85⟩] =
        csv_run dbStudents dbCourses noErr [⟨"001", "NOPE", 85⟩] ∧
      csv_run dbStudents dbCourses noErr [⟨"999", "CS101", 85⟩] = (0, 1, []) := by
  refine ⟨?_, ?_, ?_⟩ <;> with_unfolding_all decide

/-- C8 (amended): neither upload path ever aborts because of one bad record:
the Excel path processes every row individually (the batch result is the
per-row map, so a failing row cannot affect the others) and marks each failed
row with a reason message; the CSV path counts every row exactly once as
success or failure and upserts exactly the rows that individually succeed,
but reports failures only in aggregate, without per-record reasons. -/
theorem uploads_reject_per_record :
    (∀ (students : List Student) (courses : List Course)
        (upsertErr : String → String → ℚ → String → Option String)
        (rows : List UploadedRow),
        excel_handleUpload students courses upsertErr rows =
          rows.map (processRow students courses upsertErr)) ∧
      (∀ (students : List Student) (courses : List Course)
          (upsertErr : String → String → ℚ → String → Option String)
          (row : UploadedRow),
          (processRow students courses upsertErr row).status = RowStatus.error →
            ((processRow students courses upsertErr row).message).isSome = true) ∧
      (∀ (students : List Student) (courses : List Course)
          (upsertErr : String → String → ℚ → String → Option String)
          (rows : List CsvRow),
          (csv_run students courses upsertErr rows).1 +
              (csv_run students courses upsertErr rows).2.1 = rows.length ∧
            (csv_run students courses upsertErr rows).2.2 =
              rows.filterMap (csvProcessRow students courses upsertErr)) := by
  refine ⟨excel_handleUpload_eq_map, ?_, csv_run_counts⟩
  intro students courses upsertErr row
  unfold processRow
  repeat' split
  all_goals intro h
  all_goals simp_all

/-- Witness for the amended C8: a row with an empty NIM is marked failed and
carries a reason message. -/
theorem uploads_reject_per_record_witness :
    (processRow dbStudents dbCourses noErr exBadRow).status = RowStatus.error ∧
      ((processRow dbStudents dbCourses noErr exBadRow).message).isSome = true :=
  ⟨by with_unfolding_all decide,
    uploads_reject_per_record.2.1 dbStudents dbCourses noErr exBadRow
      (by with_unfolding_all decide)⟩

/-- C9: the hard-coded letter-grade maps disagree: at score 80 (inside
[0,100]) the Excel/CSV uploads' `getLetterGrade` yields 'B+' while the
enrollment grade-entry `calculateLetterGrade` yields 'A-'; both are functions
of the score alone and consult no grading-scale table, so the stored letter
grade for the same score depends on the path used. -/
theorem letter_grade_maps_disagree :
    (0 : ℚ) ≤ 80 ∧ (80 : ℚ) ≤ 100 ∧
      getLetterGrade 80 = "B+" ∧ calculateLetterGrade 80 = "A-" ∧
      getLetterGrade 80 ≠ calculateLetterGrade 80 := by
  with_unfolding_all decide

/-- C10: in the CSV upload, a row whose parsed score is 0 is always counted as
failed and never upserted, because the missing-field check `!score` treats the
numeric score 0 as absent. -/
theorem csv_zero_score_rejected (students : List Student) (courses : List Course)
    (upsertErr : String → String → ℚ → String → Option String) (row : CsvRow)
    (h : row.score = 0) :
    csvProcessRow students courses upsertErr row = none ∧
      csv_run students courses upsertErr [row] = (0, 1, []) := by
  have h1 : csvProcessRow students courses upsertErr row = none := by
    unfold csvProcessRow
    rw [if_pos (Or.inr (Or.inr h))]
  exact ⟨h1, by simp [csv_run, h1]⟩

/-- Witness for C10: a fully valid row (existing student and course) with
score 0 is still rejected. -/
theorem csv_zero_score_rejected_witness :
    (⟨"001", "CS101", 0⟩ : CsvRow).score = 0 ∧
      (csvProcessRow dbStudents dbCourses noErr ⟨"001", "CS101", 0⟩ = none ∧
        csv_run dbStudents dbCourses noErr [⟨"001", "CS101", 0⟩] = (0, 1, [])) :=
  ⟨rfl, csv_zero_score_rejected dbStudents dbCourses noErr ⟨"001", "CS101", 0⟩ rfl⟩
